import Mathlib

/-!
Verification development for the METAR-Vibe weather server (`server.js`).

The core logic of the repository is a set of regex-based token extractors over
raw METAR/TAF report strings, a flight-category classifier, and two report
translators.  This file gives a shallow embedding of that code: strings are
`String` / `List Char`, the JavaScript regexes are embedded as explicit
character-list matchers that reproduce word-boundary (`\b`) semantics, greedy
quantifiers with the backtracking the concrete patterns can exercise, leftmost
matching (`String.prototype.match`) and the global scan (`RegExp.exec` loop with
the `g` flag).  JavaScript numbers are modelled by `JSVal`: an exact rational
for finite values plus `inf`/`nan` for the values `1/0` and `0/0` produce
(rationals idealize IEEE doubles; all values reached by the claims are exactly
representable).  All definitions are executable.
-/

namespace MetarVibe

/-- JavaScript word characters, the `\w` class `[A-Za-z0-9_]`. -/
def isWordChar (c : Char) : Bool := c.isAlpha || c.isDigit || c == '_'

/-- JavaScript whitespace (the `\s` class restricted to the ASCII characters
that occur in weather reports: space, TAB, LF, VT, FF, CR). -/
def isJsWs (c : Char) : Bool := c == ' ' || (9 ≤ c.toNat && c.toNat ≤ 13)

/-- Wordness of an optional character; the ends of the string count as
non-word, as in JavaScript `\b`. -/
def wordO : Option Char → Bool
  | none => false
  | some c => isWordChar c

/-- A `\b` word boundary holds between two (optional) characters iff exactly
one side is a word character. -/
def boundary (a b : Option Char) : Bool := wordO a != wordO b

/-- Ordered regex alternation on match results: the first alternative that
succeeds wins. -/
def alt {α : Type} (a b : Option α) : Option α :=
  match a with
  | some x => some x
  | none => b

/-- Consume a literal character sequence, returning the rest of the input. -/
def dropLit : List Char → List Char → Option (List Char)
  | [], l => some l
  | _ :: _, [] => none
  | c :: cs, d :: ds => if c == d then dropLit cs ds else none

/-- Try a list of literal alternatives in order (regex alternation): return
the first literal that is a prefix of the input, with the rest. -/
def tryLits (ws : List String) (l : List Char) : Option (String × List Char) :=
  match ws with
  | [] => none
  | w :: rest =>
    match dropLit w.data l with
    | some r => some (w, r)
    | none => tryLits rest l

def digitVal (c : Char) : Nat := c.toNat - 48

/-- `parseInt` on a captured group of decimal digits. -/
def digitsToNat (ds : List Char) : Nat := ds.foldl (fun a c => 10 * a + digitVal c) 0

/-- `\d{n}`: exactly `n` digits. -/
def exactDigits : Nat → List Char → Option (List Char × List Char)
  | 0, l => some ([], l)
  | _ + 1, [] => none
  | n + 1, c :: cs =>
    if c.isDigit then (exactDigits n cs).map (fun p => (c :: p.1, p.2)) else none

/-- `\d+` with maximal munch (equivalent to the greedy quantifier in every
pattern of the source, whose follower sets are disjoint from `\d`). -/
def digitRun1 (l : List Char) : Option (List Char × List Char) :=
  match l.span Char.isDigit with
  | (ds, r) => if ds.isEmpty then none else some (ds, r)

/-- `\s+` with maximal munch (follower sets in the source are disjoint from `\s`). -/
def wsRun1 (l : List Char) : Option (List Char) :=
  match l.span isJsWs with
  | (ws, r) => if ws.isEmpty then none else some r

/-- Leftmost match, i.e. `String.prototype.match` without the `g` flag: try the
matcher at every position from the left, threading the previous character for
word-boundary tests. -/
def findFirst {α : Type} (m : Option Char → List Char → Option α) :
    Option Char → List Char → Option α
  | prev, [] => m prev []
  | prev, c :: cs =>
    match m prev (c :: cs) with
    | some a => some a
    | none => findFirst m (some c) cs

/-- The `RegExp.exec` loop with the `g` flag: collect captures of successive
non-overlapping leftmost matches.  Matchers report the last consumed character
and the remaining input; the fuel (instantiated with the input length, an upper
bound since every match consumes at least one character) makes the scan
structurally terminating. -/
def scanAllF {α : Type} (m : Option Char → List Char → Option (α × Char × List Char)) :
    Nat → Option Char → List Char → List α
  | 0, _, _ => []
  | _ + 1, _, [] => []
  | fuel + 1, prev, c :: cs =>
    match m prev (c :: cs) with
    | some (a, last, rest) => a :: scanAllF m fuel (some last) rest
    | none => scanAllF m fuel (some c) cs

/-! ## JavaScript number values

`parseInt` on the captured digit groups always yields a non-negative integer;
the only arithmetic the extractors perform is one division and one addition.
`JSVal` models the possible results: a finite value (an exact rational),
`Infinity` (from `n/0`, `n > 0`) and `NaN` (from `0/0`). -/

inductive JSVal : Type where
  | fin (q : ℚ)
  | inf
  | nan
deriving DecidableEq, Repr

/-- JavaScript division of two non-negative integers. -/
def jsDiv (n d : Nat) : JSVal :=
  if d = 0 then (if n = 0 then JSVal.nan else JSVal.inf) else JSVal.fin ((n : ℚ) / (d : ℚ))

/-- JavaScript addition of a non-negative integer and a `JSVal`. -/
def jsAdd (w : Nat) : JSVal → JSVal
  | JSVal.fin q => JSVal.fin ((w : ℚ) + q)
  | JSVal.inf => JSVal.inf
  | JSVal.nan => JSVal.nan

/-- JavaScript `<` against a finite threshold (`Infinity < t` and `NaN < t`
are both false). -/
def jsLtNum : JSVal → ℚ → Bool
  | JSVal.fin q, t => decide (q < t)
  | JSVal.inf, _ => false
  | JSVal.nan, _ => false

/-- JavaScript `<=` against a finite threshold. -/
def jsLeNum : JSVal → ℚ → Bool
  | JSVal.fin q, t => decide (q ≤ t)
  | JSVal.inf, _ => false
  | JSVal.nan, _ => false

/-! ## Visibility extractor (`parseVisibility`, server.js lines 16-37) -/

/-- `/\bM\d+\/\d+SM\b/` at one position ("M1/4SM", less than minimum). -/
def matchVisM (prev : Option Char) (l : List Char) : Option Unit :=
  if boundary prev l.head? then
    match l with
    | 'M' :: r =>
      match digitRun1 r with
      | some (_, r1) =>
        match r1 with
        | '/' :: r2 =>
          match digitRun1 r2 with
          | some (_, r3) =>
            match dropLit ['S', 'M'] r3 with
            | some r4 => if boundary (some 'M') r4.head? then some () else none
            | none => none
          | none => none
        | _ => none
      | none => none
    | _ => none
  else none

/-- `/\b(\d+)\s+(\d+)\/(\d+)SM\b/` at one position ("2 1/2SM", mixed number). -/
def matchVisMixed (prev : Option Char) (l : List Char) : Option (Nat × Nat × Nat) :=
  if boundary prev l.head? then
    match digitRun1 l with
    | some (ws, r1) =>
      match wsRun1 r1 with
      | some r2 =>
        match digitRun1 r2 with
        | some (ns, r3) =>
          match r3 with
          | '/' :: r4 =>
            match digitRun1 r4 with
            | some (ds, r5) =>
              match dropLit ['S', 'M'] r5 with
              | some r6 =>
                if boundary (some 'M') r6.head? then
                  some (digitsToNat ws, digitsToNat ns, digitsToNat ds)
                else none
              | none => none
            | none => none
          | _ => none
        | none => none
      | none => none
    | none => none
  else none

/-- `/\b(\d+)\/(\d+)SM\b/` at one position ("3/4SM", pure fraction). -/
def matchVisFrac (prev : Option Char) (l : List Char) : Option (Nat × Nat) :=
  if boundary prev l.head? then
    match digitRun1 l with
    | some (ns, r1) =>
      match r1 with
      | '/' :: r2 =>
        match digitRun1 r2 with
        | some (ds, r3) =>
          match dropLit ['S', 'M'] r3 with
          | some r4 =>
            if boundary (some 'M') r4.head? then some (digitsToNat ns, digitsToNat ds)
            else none
          | none => none
        | none => none
      | _ => none
    | none => none
  else none

/-- `/\b(\d+)SM\b/` at one position ("10SM", whole number). -/
def matchVisWhole (prev : Option Char) (l : List Char) : Option Nat :=
  if boundary prev l.head? then
    match digitRun1 l with
    | some (ns, r1) =>
      match dropLit ['S', 'M'] r1 with
      | some r2 =>
        if boundary (some 'M') r2.head? then some (digitsToNat ns) else none
      | none => none
    | none => none
  else none

/-- `parseVisibility` (server.js lines 16-37): four surface forms tried in
priority order, the first matching one wins; `null` becomes `none`. -/
def parseVisibilityL (l : List Char) : Option JSVal :=
  if (findFirst matchVisM none l).isSome then some (JSVal.fin 0)
  else
    match findFirst matchVisMixed none l with
    | some (w, n, d) => some (jsAdd w (jsDiv n d))
    | none =>
      match findFirst matchVisFrac none l with
      | some (n, d) => some (jsDiv n d)
      | none =>
        match findFirst matchVisWhole none l with
        | some n => some (JSVal.fin (n : ℚ))
        | none => none

def parseVisibility (s : String) : Option JSVal := parseVisibilityL s.data

/-! ## Ceiling extractor (`parseCeiling`, server.js lines 44-55) -/

/-- `/\b(BKN|OVC)(\d{3})\b/` at one position; the capture is the parsed
three-digit group (hundreds of feet). -/
def matchCeilAt (prev : Option Char) (l : List Char) : Option (Nat × Char × List Char) :=
  if boundary prev l.head? then
    match tryLits ["BKN", "OVC"] l with
    | some (_, r1) =>
      match exactDigits 3 r1 with
      | some (ds, r2) =>
        if boundary ds.getLast? r2.head? then some (digitsToNat ds, ds.getLastD '0', r2)
        else none
      | none => none
    | none => none
  else none

/-- All `BKN`/`OVC` layer captures in scan order (the `exec` loop of
server.js line 49). -/
def ceilLayers (l : List Char) : List Nat := scanAllF matchCeilAt l.length none l

/-- The accumulator loop of server.js lines 46-52: `ft = parseInt(...) * 100`,
keep the lowest, starting from `null`. -/
def ceilLoop : List Nat → Option Nat → Option Nat
  | [], acc => acc
  | n :: ns, acc =>
    ceilLoop ns
      (match acc with
       | none => some (n * 100)
       | some m => if n * 100 < m then some (n * 100) else some m)

/-- `parseCeiling` (server.js lines 44-55). -/
def parseCeilingL (l : List Char) : Option Nat := ceilLoop (ceilLayers l) none

def parseCeiling (s : String) : Option Nat := parseCeilingL s.data

/-! ## Flight-category classifier (`getFlightCategory`, server.js lines 61-82) -/

inductive FlightCategory : Type where
  | LIFR
  | IFR
  | MVFR
  | VFR
deriving DecidableEq, Repr

/-- `o !== null && f o` for an optional reading. -/
def optCheck {α : Type} (o : Option α) (f : α → Bool) : Bool :=
  match o with
  | some x => f x
  | none => false

/-- The category decision of server.js lines 65-81, on the two extracted
readings. -/
def flightCategoryOf (vis : Option JSVal) (ceil : Option Nat) : FlightCategory :=
  if optCheck ceil (fun c => decide (c < 500)) || optCheck vis (fun v => jsLtNum v 1) then
    FlightCategory.LIFR
  else if optCheck ceil (fun c => decide (c < 1000)) || optCheck vis (fun v => jsLtNum v 3) then
    FlightCategory.IFR
  else if optCheck ceil (fun c => decide (c ≤ 3000)) || optCheck vis (fun v => jsLeNum v 5) then
    FlightCategory.MVFR
  else FlightCategory.VFR

/-- `getFlightCategory` (server.js lines 61-82): the category together with the
readings it was derived from. -/
def getFlightCategory (s : String) : FlightCategory × Option JSVal × Option Nat :=
  (flightCategoryOf (parseVisibility s) (parseCeiling s), parseVisibility s, parseCeiling s)

/-! ## Shared rendering helpers -/

/-- `Array.prototype.join(sep)`. -/
def joinSep (sep : String) : List String → String
  | [] => ""
  | [p] => p
  | p :: q :: rest => p ++ sep ++ joinSep sep (q :: rest)

/-- `w[0].toUpperCase() + w.slice(1)`. -/
def capFirst (s : String) : String :=
  match s.data with
  | [] => s
  | c :: cs => String.mk (c.toUpper :: cs)

/-- Zero-pad a number below 100 to two digits (`String(n).padStart(2, "0")`,
and the fractional part of `toFixed(2)`). -/
def pad2 (n : Nat) : String := if n < 10 then "0" ++ toString n else toString n

/-- `Number.prototype.toLocaleString()` in the server's en-US locale: decimal
digits in groups of three separated by commas.  Layer altitudes are below
100 000, so one separator suffices. -/
def localeString (n : Nat) : String :=
  if n < 1000 then toString n
  else
    toString (n / 1000) ++ "," ++
      (if n % 1000 < 10 then "00" ++ toString (n % 1000)
       else if n % 1000 < 100 then "0" ++ toString (n % 1000)
       else toString (n % 1000))

/-- `toFixed(2)` on a finite non-negative value: round to the nearest
hundredth (exact for every value the translators reach) and print with two
decimal places. -/
def toFixed2 (q : ℚ) : String :=
  let m : Nat := (Rat.floor (q * 100 + 1 / 2)).toNat
  toString (m / 100) ++ "." ++ pad2 (m % 100)

/-- The string interpolation `${vis % 1 === 0 ? vis : vis.toFixed(2)}` of the
visibility sentence (server.js lines 105 and 187). -/
def visNumStr : JSVal → String
  | JSVal.fin q => if q.den = 1 then toString q.num else toFixed2 q
  | JSVal.inf => "Infinity"
  | JSVal.nan => "NaN"

/-- The visibility sentence shared by both translators (server.js lines
104-106 and 186-188). -/
def visSentence (v : JSVal) : String :=
  "Visibility " ++ visNumStr v ++ " statute mile" ++
    (if v = JSVal.fin 1 then "" else "s") ++ "."

/-! ## Wind (server.js lines 94-100 and 176-182) -/

/-- The direction capture of `(VRB|\d{3})`: either `VRB` or the literal
three-digit text (the source renders the raw text, so `080` stays `080`). -/
inductive WindDir : Type where
  | vrb
  | deg (ds : String)
deriving DecidableEq, Repr

/-- `KT\b` after the optional gust group. -/
def ktEnd (gust : Option Nat) (l : List Char) : Option (Option Nat × Char × List Char) :=
  match dropLit ['K', 'T'] l with
  | some r => if boundary (some 'T') r.head? then some (gust, 'T', r) else none
  | none => none

/-- `(G(\d{2,3}))?KT\b`: the greedy optional gust group, trying three digits,
then two, then no gust group at all. -/
def windGustTail (l : List Char) : Option (Option Nat × Char × List Char) :=
  alt
    (match l with
     | 'G' :: r =>
       alt
         (match exactDigits 3 r with
          | some (ds, r2) => ktEnd (some (digitsToNat ds)) r2
          | none => none)
         (match exactDigits 2 r with
          | some (ds, r2) => ktEnd (some (digitsToNat ds)) r2
          | none => none)
     | _ => none)
    (ktEnd none l)

/-- `(\d{2,3})(G(\d{2,3}))?KT\b`: the greedy speed group with full
backtracking into the tail. -/
def windSpeedTail (l : List Char) : Option (Nat × Option Nat × Char × List Char) :=
  alt
    (match exactDigits 3 l with
     | some (ds, r) => (windGustTail r).map (fun g => (digitsToNat ds, g))
     | none => none)
    (match exactDigits 2 l with
     | some (ds, r) => (windGustTail r).map (fun g => (digitsToNat ds, g))
     | none => none)

/-- `/\b(VRB|\d{3})(\d{2,3})(G(\d{2,3}))?KT\b/` at one position. -/
def matchWindAt (prev : Option Char) (l : List Char) : Option (WindDir × Nat × Option Nat) :=
  if boundary prev l.head? then
    alt
      (match dropLit ['V', 'R', 'B'] l with
       | some r => (windSpeedTail r).map (fun p => (WindDir.vrb, p.1, p.2.1))
       | none => none)
      (match exactDigits 3 l with
       | some (ds, r) => (windSpeedTail r).map (fun p => (WindDir.deg (String.mk ds), p.1, p.2.1))
       | none => none)
  else none

def dirStr : WindDir → String
  | WindDir.vrb => "variable"
  | WindDir.deg ds => ds ++ "°"

def gustStr : Option Nat → String
  | some g => " gusting " ++ toString g ++ " knots"
  | none => ""

/-- The wind sentence of both translators; `label` is `"Wind "` for METAR and
`"Initial wind "` for TAF (the only textual difference between lines 94-100
and 176-182).  Speed zero overrides everything with `"Winds calm."`. -/
def windSentence (label : String) (m : WindDir × Nat × Option Nat) : String :=
  if m.2.1 = 0 then "Winds calm."
  else label ++ dirStr m.1 ++ " at " ++ toString m.2.1 ++ " knots" ++ gustStr m.2.2 ++ "."

def metarWindPart (l : List Char) : Option String :=
  (findFirst matchWindAt none l).map (windSentence "Wind ")

def tafWindPart (l : List Char) : Option String :=
  (findFirst matchWindAt none l).map (windSentence "Initial wind ")

def visPart (l : List Char) : Option String := (parseVisibilityL l).map visSentence

/-! ## Weather phenomena (server.js lines 109-126) -/

def wxCodes : List (String × String) :=
  [("RA", "rain"), ("SN", "snow"), ("DZ", "drizzle"), ("TS", "thunderstorm"), ("FG", "fog"),
   ("BR", "mist"), ("HZ", "haze"), ("SQ", "squalls"), ("GR", "hail"), ("GS", "snow pellets"),
   ("UP", "unknown precipitation"), ("FU", "smoke"), ("SA", "sand"), ("DU", "dust")]

def wxIntensity : List (String × String) :=
  [("-", "light "), ("+", "heavy "), ("VC", "in vicinity ")]

def wxMods : List String := ["MI", "PR", "BC", "DR", "BL", "SH", "TS", "FZ"]

def wxPhenoms : List String :=
  ["RA", "SN", "DZ", "FG", "BR", "HZ", "SQ", "GR", "GS", "UP", "FU", "SA", "DU", "TS"]

/-- The phenomenon alternation `(RA|SN|...)` followed by the trailing `\b`. -/
def phenomEnd (l : List Char) : Option (String × Char × List Char) :=
  match tryLits wxPhenoms l with
  | some (w, r) =>
    if boundary w.data.getLast? r.head? then some (w, w.data.getLastD 'A', r) else none
  | none => none

/-- `(MI|PR|BC|DR|BL|SH|TS|FZ)?(RA|...)\b`: greedy optional modifier, backing
off to no modifier when the phenomenon cannot follow it. -/
def modPhenom (l : List Char) : Option (String × Char × List Char) :=
  alt
    (match tryLits wxMods l with
     | some (_, r) => phenomEnd r
     | none => none)
    (phenomEnd l)

/-- `/\b([-+]|VC)?(MI|...)?(RA|...)\b/` at one position.  The leading `\b` is
evaluated at the match start, so an intensity sign can only be consumed when
the previous character is a word character. -/
def matchWxAt (prev : Option Char) (l : List Char) :
    Option ((Option String × String) × Char × List Char) :=
  if boundary prev l.head? then
    alt
      (match l with
       | '-' :: r => (modPhenom r).map (fun p => ((some "-", p.1), p.2))
       | _ => none)
      (alt
        (match l with
         | '+' :: r => (modPhenom r).map (fun p => ((some "+", p.1), p.2))
         | _ => none)
        (alt
          (match dropLit ['V', 'C'] l with
           | some r => (modPhenom r).map (fun p => ((some "VC", p.1), p.2))
           | none => none)
          ((modPhenom l).map (fun p => ((none, p.1), p.2)))))
  else none

/-- One rendered phenomenon: `(wxIntensity[m[1]] ?? "") + (wxCodes[m[3]] ??
m[3].toLowerCase())`. -/
def wxPhrase (m : Option String × String) : String :=
  ((m.1.bind (fun g => wxIntensity.lookup g)).getD "") ++
    ((wxCodes.lookup m.2).getD m.2.toLower)

def wxPhrases (l : List Char) : List String :=
  (scanAllF matchWxAt l.length none l).map wxPhrase

/-- Capitalize the first item, join with `", "` and terminate with a period
(the sentence assembly of server.js lines 124-125 and 139-141). -/
def sentencePart (ps : List String) : Option String :=
  match ps with
  | [] => none
  | p :: rest =>
    some (capFirst p ++ (if rest.isEmpty then "" else ", " ++ joinSep ", " rest) ++ ".")

def metarWxPart (l : List Char) : Option String := sentencePart (wxPhrases l)

/-! ## Sky conditions (server.js lines 129-142 and 191-201) -/

def SKY_COVER : List (String × String) :=
  [("FEW", "few clouds"), ("SCT", "scattered clouds"), ("BKN", "broken clouds"),
   ("OVC", "overcast")]

/-- `(CB|TCU)?\b` after the three altitude digits. -/
def skySuffix (ds : List Char) (r2 : List Char) : Option (Option String × Char × List Char) :=
  alt
    (match dropLit ['C', 'B'] r2 with
     | some r3 => if boundary (some 'B') r3.head? then some (some "CB", 'B', r3) else none
     | none => none)
    (alt
      (match dropLit ['T', 'C', 'U'] r2 with
       | some r3 => if boundary (some 'U') r3.head? then some (some "TCU", 'U', r3) else none
       | none => none)
      (if boundary ds.getLast? r2.head? then some (none, ds.getLastD '0', r2) else none))

/-- `/\b(FEW|SCT|BKN|OVC)(\d{3})(CB|TCU)?\b/` at one position. -/
def matchSkyAt (prev : Option Char) (l : List Char) :
    Option ((String × Nat × Option String) × Char × List Char) :=
  if boundary prev l.head? then
    match tryLits ["FEW", "SCT", "BKN", "OVC"] l with
    | some (cover, r1) =>
      match exactDigits 3 r1 with
      | some (ds, r2) =>
        (skySuffix ds r2).map (fun p => ((cover, digitsToNat ds, p.1), p.2))
      | none => none
    | none => none
  else none

/-- One rendered layer (server.js lines 133-136, also used by the TAF path at
lines 194-197). -/
def renderLayer (m : String × Nat × Option String) : String :=
  ((SKY_COVER.lookup m.1).getD m.1) ++ " at " ++ localeString (m.2.1 * 100) ++ " feet" ++
    (if m.2.2 = some "CB" then " with cumulonimbus"
     else if m.2.2 = some "TCU" then " with towering cumulus" else "")

/-- `/\b(CLR|SKC|CAVOK)\b/.test(...)` and `/\b(SKC|CAVOK)\b/.test(...)`. -/
def matchAnyWord (words : List String) (prev : Option Char) (l : List Char) : Option String :=
  if boundary prev l.head? then
    match tryLits words l with
    | some (w, r) => if boundary w.data.getLast? r.head? then some w else none
    | none => none
  else none

def testAnyWord (words : List String) (l : List Char) : Bool :=
  (findFirst (matchAnyWord words) none l).isSome

/-- All rendered METAR layers: every matched layer token, then the `sky clear`
pseudo-layer whenever the report contains CLR, SKC or CAVOK (server.js lines
130-138; note the pseudo-layer is pushed regardless of real layers). -/
def metarLayers (l : List Char) : List String :=
  ((scanAllF matchSkyAt l.length none l).map renderLayer) ++
    (if testAnyWord ["CLR", "SKC", "CAVOK"] l then ["sky clear"] else [])

def metarSkyPart (l : List Char) : Option String := sentencePart (metarLayers l)

/-- The TAF sky sentence (server.js lines 191-201): only the first layer
token, else `Sky clear.` when SKC or CAVOK occurs (CLR is not checked). -/
def tafSkyPart (l : List Char) : Option String :=
  match findFirst matchSkyAt none l with
  | some (m, _, _) => some (capFirst (renderLayer m) ++ ".")
  | none => if testAnyWord ["SKC", "CAVOK"] l then some "Sky clear." else none

/-! ## Temperature / dewpoint and altimeter (server.js lines 144-155) -/

/-- `M?\d{2}` with the leading `M` read as a negative sign. -/
def matchMNum (l : List Char) : Option (Int × Char × List Char) :=
  match l with
  | 'M' :: r =>
    (exactDigits 2 r).map (fun p => (-(digitsToNat p.1 : Int), p.1.getLastD '0', p.2))
  | _ =>
    (exactDigits 2 l).map (fun p => ((digitsToNat p.1 : Int), p.1.getLastD '0', p.2))

/-- `/\b(M?\d{2})\/(M?\d{2})\b/` at one position. -/
def matchTempAt (prev : Option Char) (l : List Char) : Option (Int × Int) :=
  if boundary prev l.head? then
    match matchMNum l with
    | some (t, _, r1) =>
      match r1 with
      | '/' :: r2 =>
        match matchMNum r2 with
        | some (d, last, r3) =>
          if boundary (some last) r3.head? then some (t, d) else none
        | none => none
      | _ => none
    | none => none
  else none

def tempPart (l : List Char) : Option String :=
  (findFirst matchTempAt none l).map (fun m =>
    "Temperature " ++ toString m.1 ++ "°C, dewpoint " ++ toString m.2 ++ "°C.")

/-- `/\bA(\d{4})\b/` at one position. -/
def matchAltAt (prev : Option Char) (l : List Char) : Option Nat :=
  if boundary prev l.head? then
    match l with
    | 'A' :: r =>
      match exactDigits 4 r with
      | some (ds, r2) =>
        if boundary ds.getLast? r2.head? then some (digitsToNat ds) else none
      | none => none
    | _ => none
  else none

/-- `Altimeter ${(parseInt(...) / 100).toFixed(2)} inHg.` -/
def altPart (l : List Char) : Option String :=
  (findFirst matchAltAt none l).map (fun n =>
    "Altimeter " ++ toString (n / 100) ++ "." ++ pad2 (n % 100) ++ " inHg.")

/-! ## METAR translator (`translateMetar`, server.js lines 90-158) -/

def metarParts (l : List Char) : List String :=
  [metarWindPart l, visPart l, metarWxPart l, metarSkyPart l, tempPart l, altPart l].filterMap id

def translateMetar (s : String) : String :=
  let parts := metarParts s.data
  if parts.isEmpty then "Unable to translate METAR." else joinSep " " parts

/-! ## TAF translator (`translateTaf`, server.js lines 160-210) -/

/-- `/\b(\d{2})(\d{2})\/(\d{2})(\d{2})\b/` at one position. -/
def matchPeriodAt (prev : Option Char) (l : List Char) : Option (Nat × Nat × Nat × Nat) :=
  if boundary prev l.head? then
    match exactDigits 2 l with
    | some (d1, r1) =>
      match exactDigits 2 r1 with
      | some (h1, r2) =>
        match r2 with
        | '/' :: r3 =>
          match exactDigits 2 r3 with
          | some (d2, r4) =>
            match exactDigits 2 r4 with
            | some (h2, r5) =>
              if boundary h2.getLast? r5.head? then
                some (digitsToNat d1, digitsToNat h1, digitsToNat d2, digitsToNat h2)
              else none
            | none => none
          | none => none
        | _ => none
      | none => none
    | none => none
  else none

def periodPart (l : List Char) : Option String :=
  (findFirst matchPeriodAt none l).map (fun m =>
    "Forecast valid day " ++ toString m.1 ++ " from " ++ pad2 m.2.1 ++ ":00Z to day " ++
      toString m.2.2.1 ++ " " ++ pad2 m.2.2.2 ++ ":00Z.")

/-- `/\b(TEMPO|BECMG|FM\d{6})\b/` at one position, capturing the matched
token text. -/
def matchChangeAt (prev : Option Char) (l : List Char) : Option (String × Char × List Char) :=
  if boundary prev l.head? then
    alt
      (match dropLit ['T', 'E', 'M', 'P', 'O'] l with
       | some r => if boundary (some 'O') r.head? then some ("TEMPO", 'O', r) else none
       | none => none)
      (alt
        (match dropLit ['B', 'E', 'C', 'M', 'G'] l with
         | some r => if boundary (some 'G') r.head? then some ("BECMG", 'G', r) else none
         | none => none)
        (match dropLit ['F', 'M'] l with
         | some r =>
           match exactDigits 6 r with
           | some (ds, r2) =>
             if boundary ds.getLast? r2.head? then
               some ("FM" ++ String.mk ds, ds.getLastD '0', r2)
             else none
           | none => none
         | none => none))
  else none

def changeTokens (l : List Char) : List String := scanAllF matchChangeAt l.length none l

def changesPart (l : List Char) : Option String :=
  let cs := changeTokens l
  if cs.isEmpty then none
  else
    some ("Contains " ++ toString cs.length ++ " change group" ++
      (if cs.length > 1 then "s" else "") ++ " (" ++ joinSep ", " cs ++ ").")

def tafParts (l : List Char) : List String :=
  [periodPart l, tafWindPart l, visPart l, tafSkyPart l, changesPart l].filterMap id

/-- `String.prototype.trim` (over the character list). -/
def trimL (l : List Char) : List Char :=
  ((l.dropWhile isJsWs).reverse.dropWhile isJsWs).reverse

def translateTaf (s : String) : String :=
  if trimL s.data = [] then "No TAF available."
  else
    let parts := tafParts s.data
    if parts.isEmpty then "Unable to translate TAF." else joinSep " " parts

/-! ## Spec-side definitions

`specFlightCategory` restates the classifier rules in the spec's own words
(section 4.3: presence of a reading as an existential, thresholds on a
rational visibility) so that the code's decision procedure can be compared
against it. -/

instance decExOptProp {α : Type} (o : Option α) (p : α → Prop) [DecidablePred p] :
    Decidable (∃ x, o = some x ∧ p x) :=
  match o with
  | none => isFalse (by simp)
  | some a => decidable_of_iff (p a) (by simp)

/-- The spec's classifier: four rules in strict priority order, first
satisfied rule wins; a rule fires when the named reading is present and
beats its threshold. -/
def specFlightCategory (vis : Option ℚ) (ceil : Option Nat) : FlightCategory :=
  if (∃ c, ceil = some c ∧ c < 500) ∨ (∃ v, vis = some v ∧ v < 1) then FlightCategory.LIFR
  else if (∃ c, ceil = some c ∧ c < 1000) ∨ (∃ v, vis = some v ∧ v < 3) then FlightCategory.IFR
  else if (∃ c, ceil = some c ∧ c ≤ 3000) ∨ (∃ v, vis = some v ∧ v ≤ 5) then FlightCategory.MVFR
  else FlightCategory.VFR

/-- No METAR field is extractable from the report: every matcher used by
`translateMetar` fails. -/
def metarNoFields (l : List Char) : Prop :=
  findFirst matchWindAt none l = none ∧ parseVisibilityL l = none ∧
    scanAllF matchWxAt l.length none l = [] ∧ scanAllF matchSkyAt l.length none l = [] ∧
    testAnyWord ["CLR", "SKC", "CAVOK"] l = false ∧
    findFirst matchTempAt none l = none ∧ findFirst matchAltAt none l = none

/-- No TAF field is extractable from the report: every matcher used by
`translateTaf` fails. -/
def tafNoFields (l : List Char) : Prop :=
  findFirst matchPeriodAt none l = none ∧ findFirst matchWindAt none l = none ∧
    parseVisibilityL l = none ∧ findFirst matchSkyAt none l = none ∧
    testAnyWord ["SKC", "CAVOK"] l = false ∧ changeTokens l = []

/-! ## Helper lemmas -/

theorem alt_eq_some {α : Type} {a b : Option α} {x : α} :
    alt a b = some x ↔ a = some x ∨ (a = none ∧ b = some x) := by
  cases a <;> simp [alt]

theorem ceilLoop_acc (L : List Nat) :
    ∀ a : Nat, ceilLoop L (some a) = some (L.foldl (fun m n => min m (n * 100)) a) := by
  induction L with
  | nil => intro a; rfl
  | cons n ns ih =>
    intro a
    simp only [ceilLoop, List.foldl_cons]
    rcases le_or_lt a (n * 100) with h | h
    · rw [if_neg (by omega), ih, min_eq_left h]
    · rw [if_pos h, ih, min_eq_right h.le]

theorem ceilLoop_min (L : List Nat) :
    ceilLoop L none = (L.map (fun n => n * 100)).min? := by
  cases L with
  | nil => rfl
  | cons n ns =>
    have h0 : ceilLoop (n :: ns) none = ceilLoop ns (some (n * 100)) := rfl
    rw [h0, ceilLoop_acc]
    simp [List.min?, List.foldl_map]

theorem data_append (a b : String) : (a ++ b).data = a.data ++ b.data := by
  cases a
  cases b
  rfl

theorem eq_empty_iff_data (s : String) : s = "" ↔ s.data = [] := by
  constructor
  · intro h
    rw [h]
  · intro h
    cases s
    subst h
    rfl

theorem append_ne_empty_right (a b : String) (hb : b ≠ "") : a ++ b ≠ "" := by
  intro h
  apply hb
  have hd := congrArg String.data h
  rw [data_append] at hd
  have h0 : ("" : String).data = [] := rfl
  rw [h0] at hd
  exact (eq_empty_iff_data b).mpr (List.append_eq_nil.mp hd).2

theorem append_ne_empty_left (a b : String) (ha : a ≠ "") : a ++ b ≠ "" := by
  intro h
  apply ha
  have hd := congrArg String.data h
  rw [data_append] at hd
  have h0 : ("" : String).data = [] := rfl
  rw [h0] at hd
  exact (eq_empty_iff_data a).mpr (List.append_eq_nil.mp hd).1

theorem joinSep_ne_empty (sep : String) (ps : List String)
    (h : ∀ p ∈ ps, p ≠ "") (hne : ps ≠ []) : joinSep sep ps ≠ "" := by
  match ps with
  | [] => exact absurd rfl hne
  | [p] => simpa [joinSep] using h p (by simp)
  | p :: q :: rest =>
    show p ++ sep ++ joinSep sep (q :: rest) ≠ ""
    exact append_ne_empty_left _ _ (append_ne_empty_left _ _ (h p (by simp)))

theorem windSentence_ne_empty (label : String) (m : WindDir × Nat × Option Nat) :
    windSentence label m ≠ "" := by
  unfold windSentence
  split
  · decide
  · exact append_ne_empty_right _ _ (by decide)

theorem visSentence_ne_empty (v : JSVal) : visSentence v ≠ "" := by
  unfold visSentence
  exact append_ne_empty_right _ _ (by decide)

theorem sentencePart_ne_empty (ps : List String) (p : String)
    (h : sentencePart ps = some p) : p ≠ "" := by
  unfold sentencePart at h
  cases ps with
  | nil => simp at h
  | cons q rest =>
    simp only [Option.some.injEq] at h
    rw [← h]
    exact append_ne_empty_right _ _ (by decide)

theorem metarParts_all_ne_empty (l : List Char) : ∀ p ∈ metarParts l, p ≠ "" := by
  intro p hp
  simp only [metarParts, List.mem_filterMap, List.mem_cons, List.not_mem_nil, or_false,
    id_eq] at hp
  obtain ⟨o, ho, hop⟩ := hp
  subst hop
  rcases ho with h | h | h | h | h | h
  · obtain ⟨m, _, hm⟩ := Option.map_eq_some'.mp h.symm
    rw [← hm]
    exact windSentence_ne_empty _ _
  · obtain ⟨m, _, hm⟩ := Option.map_eq_some'.mp h.symm
    rw [← hm]
    exact visSentence_ne_empty _
  · exact sentencePart_ne_empty _ _ h.symm
  · exact sentencePart_ne_empty _ _ h.symm
  · obtain ⟨m, _, hm⟩ := Option.map_eq_some'.mp h.symm
    rw [← hm]
    exact append_ne_empty_right _ _ (by decide)
  · obtain ⟨m, _, hm⟩ := Option.map_eq_some'.mp h.symm
    rw [← hm]
    exact append_ne_empty_right _ _ (by decide)

theorem tafSkyPart_ne_empty (l : List Char) (p : String)
    (h : tafSkyPart l = some p) : p ≠ "" := by
  unfold tafSkyPart at h
  cases hf : findFirst matchSkyAt none l with
  | some m =>
    rw [hf] at h
    simp only [Option.some.injEq] at h
    rw [← h]
    exact append_ne_empty_right _ _ (by decide)
  | none =>
    rw [hf] at h
    by_cases ht : testAnyWord ["SKC", "CAVOK"] l = true
    · rw [if_pos ht] at h
      simp only [Option.some.injEq] at h
      rw [← h]
      decide
    · rw [if_neg ht] at h
      simp at h

theorem tafParts_all_ne_empty (l : List Char) : ∀ p ∈ tafParts l, p ≠ "" := by
  intro p hp
  simp only [tafParts, List.mem_filterMap, List.mem_cons, List.not_mem_nil, or_false,
    id_eq] at hp
  obtain ⟨o, ho, hop⟩ := hp
  subst hop
  rcases ho with h | h | h | h | h
  · obtain ⟨m, _, hm⟩ := Option.map_eq_some'.mp h.symm
    rw [← hm]
    exact append_ne_empty_right _ _ (by decide)
  · obtain ⟨m, _, hm⟩ := Option.map_eq_some'.mp h.symm
    rw [← hm]
    exact windSentence_ne_empty _ _
  · obtain ⟨m, _, hm⟩ := Option.map_eq_some'.mp h.symm
    rw [← hm]
    exact visSentence_ne_empty _
  · exact tafSkyPart_ne_empty _ _ h.symm
  · simp only [changesPart] at h
    by_cases hc : (changeTokens l).isEmpty = true
    · rw [if_pos hc] at h
      simp at h
    · rw [if_neg hc] at h
      simp only [Option.some.injEq] at h
      rw [h]
      exact append_ne_empty_right _ _ (by decide)

/-! ## Claim theorems -/

/-- Claim C1: for every report string, the flight-category classifier applies
the four rules in strict priority order to the extracted readings — LIFR on
ceiling < 500 ft or visibility < 1 SM, else IFR on ceiling < 1000 ft or
visibility < 3 SM, else MVFR on ceiling ≤ 3000 ft or visibility ≤ 5 SM
(non-strict on both fields), else VFR — with an absent reading never firing a
rule; the code's decision agrees with the spec's rule list on every pair of
readings, and the four boundary examples hold. -/
theorem C1_classifier_priority_rules :
    (∀ s : String,
        getFlightCategory s =
          (flightCategoryOf (parseVisibility s) (parseCeiling s),
            parseVisibility s, parseCeiling s))
    ∧ (∀ (vis : Option ℚ) (ceil : Option Nat),
        flightCategoryOf (vis.map JSVal.fin) ceil = specFlightCategory vis ceil)
    ∧ flightCategoryOf (some (JSVal.fin 10)) (some 400) = FlightCategory.LIFR
    ∧ flightCategoryOf (some (JSVal.fin 2)) none = FlightCategory.IFR
    ∧ flightCategoryOf none (some 2000) = FlightCategory.MVFR
    ∧ flightCategoryOf none none = FlightCategory.VFR := by
  refine ⟨fun s => rfl, ?_, by decide, by decide, by decide, by decide⟩
  intro vis ceil
  rcases vis with _ | q <;> rcases ceil with _ | c <;>
    simp [flightCategoryOf, specFlightCategory, optCheck, jsLtNum, jsLeNum]

/-- Claim C2: ceiling extraction scans exactly the `BKN`/`OVC` three-digit
layer tokens (FEW and SCT never contribute, as the matcher only accepts the
two ceiling covers), converts each three-digit group to feet by multiplying by
100, and returns the minimum over all matched layers, or absent when no layer
matched; `"SCT015 BKN025 OVC008"` yields 800 ft. -/
theorem C2_ceiling_minimum :
    (∀ s : String, parseCeiling s = ((ceilLayers s.data).map (fun n => n * 100)).min?)
    ∧ (∀ s : String, parseCeiling s = none ↔ ceilLayers s.data = [])
    ∧ parseCeiling "SCT015 BKN025 OVC008" = some 800
    ∧ ceilLayers ("SCT015 BKN025 OVC008").data = [25, 8]
    ∧ parseCeiling "FEW005 SCT010 CLR" = none := by
  refine ⟨fun s => ceilLoop_min _, fun s => ?_, by decide, by decide, by decide⟩
  have h0 : parseCeiling s = ceilLoop (ceilLayers s.data) none := rfl
  constructor
  · intro h
    rw [h0, ceilLoop_min] at h
    cases hL : ceilLayers s.data with
    | nil => rfl
    | cons n ns => rw [hL] at h; simp [List.min?] at h
  · intro h
    rw [h0, h]
    rfl

/-- Claim C3: visibility extraction tries the four surface forms in priority
order — less-than-minimum fraction (value 0), mixed number, pure fraction,
whole number — and the first matching form wins; when none of the four forms
match, the result is absent, never zero; the four canonical examples hold. -/
theorem C3_visibility_forms :
    (∀ s : String, (findFirst matchVisM none s.data).isSome = true →
        parseVisibility s = some (JSVal.fin 0))
    ∧ (∀ (s : String) (w n d : Nat), findFirst matchVisM none s.data = none →
        findFirst matchVisMixed none s.data = some (w, n, d) →
        parseVisibility s = some (jsAdd w (jsDiv n d)))
    ∧ (∀ (s : String) (n d : Nat), findFirst matchVisM none s.data = none →
        findFirst matchVisMixed none s.data = none →
        findFirst matchVisFrac none s.data = some (n, d) →
        parseVisibility s = some (jsDiv n d))
    ∧ (∀ (s : String) (n : Nat), findFirst matchVisM none s.data = none →
        findFirst matchVisMixed none s.data = none →
        findFirst matchVisFrac none s.data = none →
        findFirst matchVisWhole none s.data = some n →
        parseVisibility s = some (JSVal.fin (n : ℚ)))
    ∧ (∀ s : String, parseVisibility s = none ↔
        (findFirst matchVisM none s.data = none ∧
          findFirst matchVisMixed none s.data = none ∧
          findFirst matchVisFrac none s.data = none ∧
          findFirst matchVisWhole none s.data = none))
    ∧ parseVisibility "M1/4SM" = some (JSVal.fin 0)
    ∧ parseVisibility "2 1/2SM" = some (JSVal.fin (5 / 2))
    ∧ parseVisibility "3/4SM" = some (JSVal.fin (3 / 4))
    ∧ parseVisibility "10SM" = some (JSVal.fin 10) := by
  refine ⟨?_, ?_, ?_, ?_, ?_, rfl, ?_, ?_, ?_⟩
  · intro s h
    simp [parseVisibility, parseVisibilityL, h]
  · intro s w n d h1 h2
    simp [parseVisibility, parseVisibilityL, h1, h2]
  · intro s n d h1 h2 h3
    simp [parseVisibility, parseVisibilityL, h1, h2, h3]
  · intro s n h1 h2 h3 h4
    simp [parseVisibility, parseVisibilityL, h1, h2, h3, h4]
  · intro s
    constructor
    · intro h
      rcases hM : findFirst matchVisM none s.data with _ | u
      · rcases hMx : findFirst matchVisMixed none s.data with _ | ⟨w, n, d⟩
        · rcases hF : findFirst matchVisFrac none s.data with _ | ⟨n, d⟩
          · rcases hW : findFirst matchVisWhole none s.data with _ | n
            · exact ⟨rfl, rfl, rfl, rfl⟩
            · simp [parseVisibility, parseVisibilityL, hM, hMx, hF, hW] at h
          · simp [parseVisibility, parseVisibilityL, hM, hMx, hF] at h
        · simp [parseVisibility, parseVisibilityL, hM, hMx] at h
      · simp [parseVisibility, parseVisibilityL, hM] at h
    · intro ⟨h1, h2, h3, h4⟩
      simp [parseVisibility, parseVisibilityL, h1, h2, h3, h4]
  · rw [show parseVisibility "2 1/2SM" = some (jsAdd 2 (jsDiv 1 2)) from rfl]
    norm_num [jsAdd, jsDiv]
  · rw [show parseVisibility "3/4SM" = some (jsDiv 3 4) from rfl]
    norm_num [jsDiv]
  · rw [show parseVisibility "10SM" = some (JSVal.fin ((10 : ℕ) : ℚ)) from rfl]
    norm_num

/-- Witness for Claim C3: the mixed-number rule of the theorem applied to the
concrete report `"2 1/2SM"`. -/
theorem C3_visibility_forms_witness :
    parseVisibility "2 1/2SM" = some (jsAdd 2 (jsDiv 1 2)) :=
  C3_visibility_forms.2.1 "2 1/2SM" 2 1 2 (by decide) (by decide)

/-- Claim C4 counterexample: the report `"1/0SM"` matches the pure-fraction
form with denominator zero and visibility extraction yields JavaScript
`Infinity` (and `"0/0SM"` yields `NaN`), which is not a finite rational —
contradicting the claim that the result is never infinite or undefined. -/
theorem C4_visibility_infinite_cex :
    parseVisibility "1/0SM" = some JSVal.inf
    ∧ (∀ q : ℚ, JSVal.inf ≠ JSVal.fin q)
    ∧ parseVisibility "0/0SM" = some JSVal.nan := by
  exact ⟨by decide, fun q h => JSVal.noConfusion h, by decide⟩

/-- Claim C4 (amended): for every input string whose matched fraction and
mixed-number forms (if any) have a non-zero denominator, visibility
extraction returns either absent or a non-negative rational number of statute
miles. -/
theorem C4_visibility_nonneg_amended :
    ∀ s : String,
      (∀ w n d : Nat, findFirst matchVisMixed none s.data = some (w, n, d) → d ≠ 0) →
      (∀ n d : Nat, findFirst matchVisFrac none s.data = some (n, d) → d ≠ 0) →
      ∀ v, parseVisibility s = some v → ∃ q : ℚ, 0 ≤ q ∧ v = JSVal.fin q := by
  intro s hmx hfr v hv
  unfold parseVisibility parseVisibilityL at hv
  by_cases hM : (findFirst matchVisM none s.data).isSome = true
  · rw [if_pos hM] at hv
    exact ⟨0, le_refl 0, (Option.some.inj hv).symm⟩
  · rw [if_neg hM] at hv
    rcases hMx : findFirst matchVisMixed none s.data with _ | ⟨w, n, d⟩
    · rw [hMx] at hv
      rcases hF : findFirst matchVisFrac none s.data with _ | ⟨n, d⟩
      · rw [hF] at hv
        rcases hW : findFirst matchVisWhole none s.data with _ | n
        · rw [hW] at hv; exact absurd hv (by simp)
        · rw [hW] at hv
          exact ⟨(n : ℚ), by positivity, (Option.some.inj hv).symm⟩
      · rw [hF] at hv
        have hd := hfr n d hF
        refine ⟨(n : ℚ) / (d : ℚ), by positivity, ?_⟩
        rw [← Option.some.inj hv]
        simp [jsDiv, hd]
    · rw [hMx] at hv
      have hd := hmx w n d hMx
      refine ⟨(w : ℚ) + (n : ℚ) / (d : ℚ), by positivity, ?_⟩
      rw [← Option.some.inj hv]
      simp [jsAdd, jsDiv, hd]

/-- Claim C5: the TAF translator returns exactly `"No TAF available."` for
blank input; for non-blank input with zero extractable fields it returns
exactly `"Unable to translate TAF."`; the METAR translator returns exactly
`"Unable to translate METAR."` when zero fields are extractable; and neither
translator ever returns an empty string (both are total functions, so neither
can raise). -/
theorem C5_translator_fallbacks :
    (∀ s : String, trimL s.data = [] → translateTaf s = "No TAF available.")
    ∧ (∀ s : String, trimL s.data ≠ [] → tafNoFields s.data →
        translateTaf s = "Unable to translate TAF.")
    ∧ (∀ s : String, metarNoFields s.data → translateMetar s = "Unable to translate METAR.")
    ∧ (∀ s : String, translateMetar s ≠ "" ∧ translateTaf s ≠ "") := by
  refine ⟨?_, ?_, ?_, ?_⟩
  · intro s h
    simp [translateTaf, h]
  · intro s h hnf
    obtain ⟨h1, h2, h3, h4, h5, h6⟩ := hnf
    simp [translateTaf, h, tafParts, periodPart, tafWindPart, visPart, tafSkyPart,
      changesPart, h1, h2, h3, h4, h5, h6]
  · intro s hnf
    obtain ⟨h1, h2, h3, h4, h5, h6, h7⟩ := hnf
    have hw : wxPhrases s.data = [] := by
      unfold wxPhrases
      rw [h3]
      rfl
    have hl : metarLayers s.data = [] := by
      unfold metarLayers
      rw [h4, h5]
      rfl
    simp [translateMetar, metarParts, metarWindPart, visPart, metarWxPart, metarSkyPart,
      tempPart, altPart, sentencePart, h1, h2, hw, hl, h6, h7]
  · intro s
    constructor
    · show (if (metarParts s.data).isEmpty then "Unable to translate METAR."
          else joinSep " " (metarParts s.data)) ≠ ""
      by_cases hE : (metarParts s.data).isEmpty = true
      · rw [if_pos hE]
        decide
      · rw [if_neg hE]
        refine joinSep_ne_empty " " _ (metarParts_all_ne_empty s.data) ?_
        intro hnil
        exact hE (by simp [hnil])
    · show (if trimL s.data = [] then "No TAF available."
          else if (tafParts s.data).isEmpty then "Unable to translate TAF."
          else joinSep " " (tafParts s.data)) ≠ ""
      by_cases hT : trimL s.data = []
      · rw [if_pos hT]
        decide
      · rw [if_neg hT]
        by_cases hE : (tafParts s.data).isEmpty = true
        · rw [if_pos hE]
          decide
        · rw [if_neg hE]
          refine joinSep_ne_empty " " _ (tafParts_all_ne_empty s.data) ?_
          intro hnil
          exact hE (by simp [hnil])

/-- Witness for Claim C5: the three fallback sentences at concrete inputs —
blank TAF input, and a report (`"@@@@"`) from which no field is
extractable. -/
theorem C5_translator_fallbacks_witness :
    translateTaf "  " = "No TAF available."
    ∧ translateTaf "@@@@" = "Unable to translate TAF."
    ∧ translateMetar "@@@@" = "Unable to translate METAR." :=
  ⟨C5_translator_fallbacks.1 "  " (by decide),
   C5_translator_fallbacks.2.1 "@@@@" (by decide)
     ⟨by decide, by decide, by decide, by decide, by decide, by decide⟩,
   C5_translator_fallbacks.2.2.1 "@@@@"
     ⟨by decide, by decide, by decide, by decide, by decide, by decide, by decide⟩⟩

/-- Claim C6 counterexample: in the report `"FEW010 CLR"` a FEW layer token is
present, yet the `sky clear` pseudo-layer is still appended to the sky
sentence — the code pushes the pseudo-layer whenever CLR/SKC/CAVOK occurs,
with no "no layer present" guard, so the claim's "only when no layer token is
present" is false. -/
theorem C6_sky_clear_guard_cex :
    metarLayers ("FEW010 CLR").data = ["few clouds at 1,000 feet", "sky clear"]
    ∧ translateMetar "FEW010 CLR" = "Few clouds at 1,000 feet, sky clear." :=
  ⟨by decide, by decide⟩

/-- Claim C6 (amended): the `sky clear` pseudo-layer is appended exactly when
the report contains CLR, SKC, or CAVOK — regardless of whether layer tokens
are present; all found layers (real plus pseudo) are joined with ", " in one
sentence, with only the first capitalized and the sentence terminated by a
period. -/
theorem C6_sky_clear_amended :
    (∀ s : String,
        metarLayers s.data =
          ((scanAllF matchSkyAt s.data.length none s.data).map renderLayer) ++
            (if testAnyWord ["CLR", "SKC", "CAVOK"] s.data then ["sky clear"] else []))
    ∧ (∀ (s p : String) (ps : List String), metarLayers s.data = p :: ps →
        metarSkyPart s.data =
          some (capFirst p ++ (if ps.isEmpty then "" else ", " ++ joinSep ", " ps) ++ ".")) := by
  refine ⟨fun s => rfl, ?_⟩
  intro s p ps h
  unfold metarSkyPart sentencePart
  rw [h]

/-- Witness for the amended Claim C6: the sentence assembly applied to the
concrete report `"FEW010 CLR"`, whose layer list is a real layer followed by
the pseudo-layer. -/
theorem C6_sky_clear_amended_witness :
    metarSkyPart ("FEW010 CLR").data =
      some (capFirst "few clouds at 1,000 feet" ++
        (if (["sky clear"] : List String).isEmpty then ""
         else ", " ++ joinSep ", " ["sky clear"]) ++ ".") :=
  C6_sky_clear_amended.2 "FEW010 CLR" "few clouds at 1,000 feet" ["sky clear"] (by decide)

/-- Claim C7: whenever the wind token parses with speed 0 — whatever the
direction capture and with or without a gust group — both translators render
the fixed sentence "Winds calm." in place of the templated wind sentence; in
particular for "00000KT" and "VRB00KT". -/
theorem C7_winds_calm :
    (∀ (s : String) (dir : WindDir) (gust : Option Nat),
        findFirst matchWindAt none s.data = some (dir, 0, gust) →
        metarWindPart s.data = some "Winds calm."
          ∧ tafWindPart s.data = some "Winds calm.")
    ∧ translateMetar "00000KT" = "Winds calm."
    ∧ translateTaf "VRB00KT" = "Winds calm."
    ∧ translateMetar "VRB00G18KT" = "Winds calm." := by
  refine ⟨?_, by decide, by decide, by decide⟩
  intro s dir gust h
  constructor
  · unfold metarWindPart
    rw [h]
    rfl
  · unfold tafWindPart
    rw [h]
    rfl

/-- Witness for Claim C7: applied to the concrete report `"00000KT"`. -/
theorem C7_winds_calm_witness :
    metarWindPart ("00000KT").data = some "Winds calm."
      ∧ tafWindPart ("00000KT").data = some "Winds calm." :=
  C7_winds_calm.1 "00000KT" (WindDir.deg "000") none (by decide)

/-- Claim C8: the TAF translator renders only the earliest-occurring sky-layer
token, with the same per-layer phrase as the METAR path (the shared
`renderLayer`); with no layer token it renders "Sky clear." exactly when the
report contains SKC or CAVOK — CLR is not recognized, unlike the METAR path
(contrast on the report `"CLR"`). -/
theorem C8_taf_first_layer_only :
    (∀ (s : String) (m : String × Nat × Option String) (last : Char) (rest : List Char),
        findFirst matchSkyAt none s.data = some (m, last, rest) →
        tafSkyPart s.data = some (capFirst (renderLayer m) ++ "."))
    ∧ (∀ s : String, findFirst matchSkyAt none s.data = none →
        tafSkyPart s.data =
          (if testAnyWord ["SKC", "CAVOK"] s.data then some "Sky clear." else none))
    ∧ tafSkyPart ("FEW010 BKN020").data = some "Few clouds at 1,000 feet."
    ∧ tafSkyPart ("CLR").data = none
    ∧ metarSkyPart ("CLR").data = some "Sky clear."
    ∧ translateTaf "CLR" = "Unable to translate TAF." := by
  refine ⟨?_, ?_, by decide, by decide, by decide, by decide⟩
  · intro s m last rest h
    unfold tafSkyPart
    rw [h]
  · intro s h
    unfold tafSkyPart
    rw [h]

/-- Witness for Claim C8: the first-layer rule applied to the concrete report
`"FEW010 BKN020"`. -/
theorem C8_taf_first_layer_witness :
    tafSkyPart ("FEW010 BKN020").data =
      some (capFirst (renderLayer ("FEW", 10, none)) ++ ".") :=
  C8_taf_first_layer_only.1 "FEW010 BKN020" ("FEW", 10, none) '0'
    [' ', 'B', 'K', 'N', '0', '2', '0'] (by decide)

/-- Claim C9: a temperature/dewpoint token `[M]dd/[M]dd` is parsed with a
leading M on either field as negative Celsius and rendered as
"Temperature <T>°C, dewpoint <D>°C."; in particular "M03/M08" and
"05/M01". -/
theorem C9_temperature_dewpoint :
    (∀ (s : String) (t d : Int), findFirst matchTempAt none s.data = some (t, d) →
        tempPart s.data =
          some ("Temperature " ++ toString t ++ "°C, dewpoint " ++ toString d ++ "°C."))
    ∧ translateMetar "M03/M08" = "Temperature -3°C, dewpoint -8°C."
    ∧ translateMetar "05/M01" = "Temperature 5°C, dewpoint -1°C."
    ∧ findFirst matchTempAt none ("M03/M08").data = some (-3, -8)
    ∧ findFirst matchTempAt none ("05/M01").data = some (5, -1) := by
  refine ⟨?_, by decide, by decide, by decide, by decide⟩
  intro s t d h
  unfold tempPart
  rw [h]
  rfl

/-- Witness for Claim C9: the rendering rule applied to the concrete report
`"M03/M08"`. -/
theorem C9_temperature_dewpoint_witness :
    tempPart ("M03/M08").data =
      some ("Temperature " ++ toString (-3 : Int) ++ "°C, dewpoint "
        ++ toString (-8 : Int) ++ "°C.") :=
  C9_temperature_dewpoint.1 "M03/M08" (-3) (-8) (by decide)

theorem tryLits_mem (ws : List String) (l : List Char) (w : String) (r : List Char)
    (h : tryLits ws l = some (w, r)) : w ∈ ws := by
  induction ws with
  | nil => simp [tryLits] at h
  | cons a as ih =>
    simp only [tryLits] at h
    cases hd : dropLit a.data l with
    | some r2 =>
      rw [hd] at h
      simp only [Option.some.injEq, Prod.mk.injEq] at h
      rw [← h.1]
      exact List.mem_cons_self a as
    | none =>
      rw [hd] at h
      exact List.mem_cons_of_mem _ (ih h)

theorem lookup_mem_snd (ps : List (String × String)) (k v : String)
    (h : ps.lookup k = some v) : v ∈ ps.map Prod.snd := by
  induction ps with
  | nil => simp [List.lookup] at h
  | cons e es ih =>
    rcases e with ⟨a, b⟩
    simp only [List.lookup] at h
    cases hq : (k == a) with
    | true =>
      rw [hq] at h
      simp only [Option.some.injEq] at h
      simp [← h]
    | false =>
      rw [hq] at h
      simp [ih h]

theorem scanAllF_sourced {α : Type}
    (m : Option Char → List Char → Option (α × Char × List Char)) (P : α → Prop)
    (hm : ∀ prev l a last rest, m prev l = some (a, last, rest) → P a) :
    ∀ (fuel : Nat) (prev : Option Char) (l : List Char) (a : α),
      a ∈ scanAllF m fuel prev l → P a := by
  intro fuel
  induction fuel with
  | zero =>
    intro prev l a h
    simp [scanAllF] at h
  | succ n ih =>
    intro prev l a h
    cases l with
    | nil => simp [scanAllF] at h
    | cons c cs =>
      rw [scanAllF] at h
      cases hm' : m prev (c :: cs) with
      | some x =>
        rcases x with ⟨b, last, rest⟩
        rw [hm'] at h
        simp only [List.mem_cons] at h
        rcases h with h1 | h1
        · subst h1
          exact hm prev (c :: cs) a last rest hm'
        · exact ih _ _ _ h1
      | none =>
        rw [hm'] at h
        exact ih _ _ _ h

theorem phenomEnd_mem (l : List Char) (c : String) (last : Char) (rest : List Char)
    (h : phenomEnd l = some (c, last, rest)) : c ∈ wxPhenoms := by
  unfold phenomEnd at h
  split at h
  · rename_i w r ht
    split at h
    · simp only [Option.some.injEq, Prod.mk.injEq] at h
      rw [← h.1]
      exact tryLits_mem _ _ _ _ ht
    · exact absurd h (by simp)
  · exact absurd h (by simp)

theorem modPhenom_mem (l : List Char) (c : String) (last : Char) (rest : List Char)
    (h : modPhenom l = some (c, last, rest)) : c ∈ wxPhenoms := by
  unfold modPhenom at h
  rcases alt_eq_some.mp h with h1 | ⟨_, h2⟩
  · split at h1
    · exact phenomEnd_mem _ _ _ _ h1
    · exact absurd h1 (by simp)
  · exact phenomEnd_mem _ _ _ _ h2

theorem matchWxAt_code_mem (prev : Option Char) (l : List Char)
    (i : Option String) (c : String) (last : Char) (rest : List Char)
    (h : matchWxAt prev l = some ((i, c), last, rest)) : c ∈ wxPhenoms := by
  unfold matchWxAt at h
  by_cases hb : boundary prev l.head? = true
  · rw [if_pos hb] at h
    rcases alt_eq_some.mp h with h1 | ⟨_, h2⟩
    · split at h1
      · obtain ⟨p, hp, he⟩ := Option.map_eq_some'.mp h1
        rcases p with ⟨pc, pl, pr⟩
        simp only [Prod.mk.injEq] at he
        rw [← he.1.2]
        exact modPhenom_mem _ _ _ _ hp
      · exact absurd h1 (by simp)
    · rcases alt_eq_some.mp h2 with h3 | ⟨_, h4⟩
      · split at h3
        · obtain ⟨p, hp, he⟩ := Option.map_eq_some'.mp h3
          rcases p with ⟨pc, pl, pr⟩
          simp only [Prod.mk.injEq] at he
          rw [← he.1.2]
          exact modPhenom_mem _ _ _ _ hp
        · exact absurd h3 (by simp)
      · rcases alt_eq_some.mp h4 with h5 | ⟨_, h6⟩
        · split at h5
          · obtain ⟨p, hp, he⟩ := Option.map_eq_some'.mp h5
            rcases p with ⟨pc, pl, pr⟩
            simp only [Prod.mk.injEq] at he
            rw [← he.1.2]
            exact modPhenom_mem _ _ _ _ hp
          · exact absurd h5 (by simp)
        · obtain ⟨p, hp, he⟩ := Option.map_eq_some'.mp h6
          rcases p with ⟨pc, pl, pr⟩
          simp only [Prod.mk.injEq] at he
          rw [← he.1.2]
          exact modPhenom_mem _ _ _ _ hp
  · rw [if_neg hb] at h
    exact absurd h (by simp)

/-- Claim C10: every weather-phenomenon phrase produced by METAR translation
is a value of the fixed code→phrase table, optionally preceded by one of the
intensity prefixes; the lowercase-literal fallback branch is unreachable
because the matcher's phenomenon group only produces the table's keys. -/
theorem C10_wx_phrases_from_table :
    ∀ (s p : String), p ∈ wxPhrases s.data →
      ∃ pre phr, pre ∈ ["", "light ", "heavy ", "in vicinity "]
        ∧ phr ∈ wxCodes.map Prod.snd ∧ p = pre ++ phr := by
  intro s p hp
  unfold wxPhrases at hp
  obtain ⟨m, hm, hmp⟩ := List.mem_map.mp hp
  have hcode : m.2 ∈ wxPhenoms := by
    refine scanAllF_sourced matchWxAt (fun a => a.2 ∈ wxPhenoms) ?_ _ _ _ _ hm
    intro prev l a last rest h
    rcases a with ⟨i, c⟩
    exact matchWxAt_code_mem prev l i c last rest h
  subst hmp
  unfold wxPhrase
  refine ⟨(m.1.bind (fun g => wxIntensity.lookup g)).getD "",
    (wxCodes.lookup m.2).getD m.2.toLower, ?_, ?_, rfl⟩
  · cases m1 : m.1 with
    | none => simp
    | some g =>
      cases hg : wxIntensity.lookup g with
      | none => simp [hg]
      | some v =>
        have h2 : v ∈ ["light ", "heavy ", "in vicinity "] := by
          simpa [wxIntensity] using lookup_mem_snd wxIntensity g v hg
        simp only [Option.some_bind, hg, Option.getD_some]
        exact List.mem_cons_of_mem _ h2
  · have hall : ∀ c ∈ wxPhenoms, (wxCodes.lookup c).isSome = true := by decide
    obtain ⟨v, hv⟩ := Option.isSome_iff_exists.mp (hall m.2 hcode)
    rw [hv]
    simpa using lookup_mem_snd wxCodes m.2 v hv

/-- Witness for Claim C10: the phrase produced for the report `"VCFG"`. -/
theorem C10_wx_phrases_witness :
    ∃ pre phr, pre ∈ ["", "light ", "heavy ", "in vicinity "]
      ∧ phr ∈ wxCodes.map Prod.snd ∧ "in vicinity fog" = pre ++ phr :=
  C10_wx_phrases_from_table "VCFG" "in vicinity fog" (by decide)

/-- Witness for the amended Claim C4: applied to the concrete report
`"10SM"`. -/
theorem C4_visibility_nonneg_witness :
    ∃ q : ℚ, 0 ≤ q ∧ JSVal.fin ((10 : ℕ) : ℚ) = JSVal.fin q :=
  C4_visibility_nonneg_amended "10SM"
    (by intro w n d h; simp [(by decide : findFirst matchVisMixed none ("10SM").data
      = (none : Option (Nat × Nat × Nat)))] at h)
    (by intro n d h; simp [(by decide : findFirst matchVisFrac none ("10SM").data
      = (none : Option (Nat × Nat)))] at h)
    (JSVal.fin ((10 : ℕ) : ℚ)) rfl

end MetarVibe
